import Mathlib

/-!
Verification of the `LuaActorBuilder` construction and configuration
protocol from `src/builder.rs` of the actix-lua repository.

The builder accumulates three lifecycle hook sources (started, handle,
stopped) and an optional VM initialization routine, then hands them to
the `LuaActor` constructor.  File reads that fail terminate the process
(a Rust panic via `expect`); we model that outcome with the `PanicOr`
result type.  The `LuaActor` constructor and the Lua engine live outside
`src/`, so they are modelled from the spec where noted.
-/

namespace ActixLua

/-- Model of the `rlua::Error` type used by `builder.rs` (`LuaError`).
Only the variants visible in the source and its test are modelled. -/
inductive LuaError where
  | SyntaxError (msg : String)
  | RuntimeError (msg : String)
deriving DecidableEq

/-- A fresh Lua VM instance handed to the initialization routine.  The
routine only observes it through the outcome it reports, so the handle
itself carries no data. -/
structure Lua where

/-- The `InitializeVM` callback type from `builder.rs`:
`Fn(&Lua) -> Result<(), LuaError>`. -/
def InitializeVM : Type := Lua → Except LuaError Unit

/-- State of one path in the modelled filesystem: missing, present but
not readable as valid UTF-8 text, or present with the given contents. -/
inductive FileState where
  | absent
  | unreadable
  | text (contents : String)

/-- The filesystem the file-based setters read from. -/
def FS : Type := String → FileState

/-- Result of a computation that may abort the whole process (a Rust
panic carrying a diagnostic message) instead of returning. -/
inductive PanicOr (α : Type) where
  | panic (msg : String)
  | ok (val : α)

/-- Map over the value of a non-aborting computation. -/
def PanicOr.map {α β : Type} (f : α → β) : PanicOr α → PanicOr β
  | .panic m => .panic m
  | .ok a => .ok (f a)

/-- Sequence two possibly-aborting computations. -/
def PanicOr.bind {α β : Type} : PanicOr α → (α → PanicOr β) → PanicOr β
  | .panic m, _ => .panic m
  | .ok a, f => f a

/-- `read_to_string` from `builder.rs` lines 88-94: opens the file and
reads it to a string, aborting the process with `File not found` when
the open fails and with `Failed to read file` when the read fails. -/
def read_to_string (fs : FS) (filename : String) : PanicOr String :=
  match fs filename with
  | .absent => .panic "File not found"
  | .unreadable => .panic "Failed to read file"
  | .text contents => .ok contents

/-- The `LuaActorBuilder` struct from `builder.rs` lines 10-15. -/
structure LuaActorBuilder where
  started : Option String
  handle : Option String
  stopped : Option String
  initialize_vm : Option InitializeVM

/-- The default no-op hook script from `builder.rs` line 19.  The spec
describes it as a script that performs no operation and returns no
value. -/
def noop : String := "return"

/-- `Default::default` for `LuaActorBuilder` (`builder.rs` lines 17-27). -/
def LuaActorBuilder.default : LuaActorBuilder :=
  { started := some noop, handle := some noop, stopped := some noop,
    initialize_vm := none }

/-- `LuaActorBuilder::new` (`builder.rs` lines 31-33). -/
def LuaActorBuilder.new : LuaActorBuilder :=
  LuaActorBuilder.default

/-- `on_started` (`builder.rs` lines 36-39): reads the file now and
stores its contents in the `started` slot; aborts when the read aborts. -/
def LuaActorBuilder.on_started (fs : FS) (self : LuaActorBuilder)
    (filename : String) : PanicOr LuaActorBuilder :=
  (read_to_string fs filename).map (fun s => { self with started := some s })

/-- `on_started_with_lua` (`builder.rs` lines 42-45). -/
def LuaActorBuilder.on_started_with_lua (self : LuaActorBuilder)
    (script : String) : LuaActorBuilder :=
  { self with started := some script }

/-- `on_handle` (`builder.rs` lines 48-51). -/
def LuaActorBuilder.on_handle (fs : FS) (self : LuaActorBuilder)
    (filename : String) : PanicOr LuaActorBuilder :=
  (read_to_string fs filename).map (fun s => { self with handle := some s })

/-- `on_handle_with_lua` (`builder.rs` lines 54-57). -/
def LuaActorBuilder.on_handle_with_lua (self : LuaActorBuilder)
    (script : String) : LuaActorBuilder :=
  { self with handle := some script }

/-- `on_stopped` (`builder.rs` lines 60-63). -/
def LuaActorBuilder.on_stopped (fs : FS) (self : LuaActorBuilder)
    (filename : String) : PanicOr LuaActorBuilder :=
  (read_to_string fs filename).map (fun s => { self with stopped := some s })

/-- `on_stopped_with_lua` (`builder.rs` lines 66-69). -/
def LuaActorBuilder.on_stopped_with_lua (self : LuaActorBuilder)
    (script : String) : LuaActorBuilder :=
  { self with stopped := some script }

/-- `with_vm` (`builder.rs` lines 72-75). -/
def LuaActorBuilder.with_vm (self : LuaActorBuilder)
    (callback : InitializeVM) : LuaActorBuilder :=
  { self with initialize_vm := some callback }

/-- The actor produced by construction, holding the three resolved hook
texts. -/
structure LuaActor where
  started : String
  handle : String
  stopped : String
deriving DecidableEq

/-- Modelled from the spec: `LuaActor::new` lives in `actor.rs`, which
is not under `src/`.  Per the spec the constructor takes the three
optional hook texts (default-substituted with the no-op script) and the
optional initialization routine, compiles the hook texts in the engine
(the engine is abstracted as the `compile` parameter), runs the
initialization routine once against a fresh VM, and returns either the
constructed actor or the first `LuaError`; construction is
all-or-nothing. -/
def LuaActor.new (compile : String → Except LuaError Unit)
    (started handle stopped : Option String)
    (initialize_vm : Option InitializeVM) : Except LuaError LuaActor :=
  let s := started.getD noop
  let h := handle.getD noop
  let t := stopped.getD noop
  match compile s with
  | .error e => .error e
  | .ok _ =>
    match compile h with
    | .error e => .error e
    | .ok _ =>
      match compile t with
      | .error e => .error e
      | .ok _ =>
        match (match initialize_vm with
               | some f => f {}
               | none => .ok ()) with
        | .error e => .error e
        | .ok _ => .ok { started := s, handle := h, stopped := t }

/-- `build` (`builder.rs` lines 78-85): hands the accumulated slots and
the initialization routine to `LuaActor::new`. -/
def LuaActorBuilder.build (compile : String → Except LuaError Unit)
    (self : LuaActorBuilder) : Except LuaError LuaActor :=
  LuaActor.new compile self.started self.handle self.stopped self.initialize_vm

/-- One call of the public builder surface, used to describe arbitrary
configuration sequences. -/
inductive BuilderOp where
  | onStarted (filename : String)
  | onStartedWithLua (script : String)
  | onHandle (filename : String)
  | onHandleWithLua (script : String)
  | onStopped (filename : String)
  | onStoppedWithLua (script : String)
  | withVm (callback : InitializeVM)

/-- Apply one builder operation. -/
def LuaActorBuilder.applyOp (fs : FS) (self : LuaActorBuilder) :
    BuilderOp → PanicOr LuaActorBuilder
  | .onStarted p => self.on_started fs p
  | .onStartedWithLua t => .ok (self.on_started_with_lua t)
  | .onHandle p => self.on_handle fs p
  | .onHandleWithLua t => .ok (self.on_handle_with_lua t)
  | .onStopped p => self.on_stopped fs p
  | .onStoppedWithLua t => .ok (self.on_stopped_with_lua t)
  | .withVm f => .ok (self.with_vm f)

/-- Apply a sequence of builder operations left to right, propagating a
process abort. -/
def LuaActorBuilder.applyOps (fs : FS) (self : LuaActorBuilder) :
    List BuilderOp → PanicOr LuaActorBuilder
  | [] => .ok self
  | op :: ops =>
    match self.applyOp fs op with
    | .panic m => .panic m
    | .ok b => b.applyOps fs ops

/-- C10: when a file-based setter succeeds, the stored slot text is
exactly the contents of the named file, with no transformation, and the
rest of the builder is unchanged. -/
theorem C10_file_contents_verbatim (fs : FS) (b : LuaActorBuilder)
    (path contents : String) (h : fs path = .text contents) :
    b.on_started fs path = .ok { b with started := some contents } ∧
    b.on_handle fs path = .ok { b with handle := some contents } ∧
    b.on_stopped fs path = .ok { b with stopped := some contents } := by
  refine ⟨?_, ?_, ?_⟩ <;>
    simp [LuaActorBuilder.on_started, LuaActorBuilder.on_handle,
      LuaActorBuilder.on_stopped, read_to_string, h, PanicOr.map]

/-- Witness for C10 at a concrete filesystem and builder. -/
theorem C10_file_contents_verbatim_witness :
    LuaActorBuilder.new.on_started (fun _ => .text "x = 1") "hook.lua" =
      .ok { LuaActorBuilder.new with started := some "x = 1" } :=
  (C10_file_contents_verbatim (fun _ => .text "x = 1") LuaActorBuilder.new
    "hook.lua" "x = 1" rfl).1

/-- C2: for every hook slot, chaining the file-based setter and the
inline-text setter in either order leaves exactly the last call's source
in the slot; only one representation is held at any time. -/
theorem C2_last_write_wins (fs : FS) (b : LuaActorBuilder)
    (path text contents : String) (h : fs path = .text contents) :
    (b.on_started_with_lua text).on_started fs path =
      .ok { b with started := some contents } ∧
    (b.on_started fs path).map (fun b2 => b2.on_started_with_lua text) =
      .ok { b with started := some text } ∧
    (b.on_handle_with_lua text).on_handle fs path =
      .ok { b with handle := some contents } ∧
    (b.on_handle fs path).map (fun b2 => b2.on_handle_with_lua text) =
      .ok { b with handle := some text } ∧
    (b.on_stopped_with_lua text).on_stopped fs path =
      .ok { b with stopped := some contents } ∧
    (b.on_stopped fs path).map (fun b2 => b2.on_stopped_with_lua text) =
      .ok { b with stopped := some text } := by
  refine ⟨?_, ?_, ?_, ?_, ?_, ?_⟩ <;>
    simp [LuaActorBuilder.on_started, LuaActorBuilder.on_handle,
      LuaActorBuilder.on_stopped, LuaActorBuilder.on_started_with_lua,
      LuaActorBuilder.on_handle_with_lua, LuaActorBuilder.on_stopped_with_lua,
      read_to_string, h, PanicOr.map]

/-- Witness for C2 at a concrete filesystem, slot and pair of sources. -/
theorem C2_last_write_wins_witness :
    (LuaActorBuilder.new.on_handle_with_lua "print(1)").on_handle
        (fun _ => .text "print(2)") "hook.lua" =
      .ok { LuaActorBuilder.new with handle := some "print(2)" } :=
  (C2_last_write_wins (fun _ => .text "print(2)") LuaActorBuilder.new
    "hook.lua" "print(1)" "print(2)" rfl).2.2.1

/-- C4: when the file is missing the file-based setters abort the whole
process with the diagnostic `File not found`, and when it cannot be read
as text they abort with `Failed to read file`; no builder value is
returned in either case. -/
theorem C4_file_setters_abort (fs : FS) (b : LuaActorBuilder) (path : String) :
    (fs path = .absent →
      b.on_started fs path = .panic "File not found" ∧
      b.on_handle fs path = .panic "File not found" ∧
      b.on_stopped fs path = .panic "File not found") ∧
    (fs path = .unreadable →
      b.on_started fs path = .panic "Failed to read file" ∧
      b.on_handle fs path = .panic "Failed to read file" ∧
      b.on_stopped fs path = .panic "Failed to read file") := by
  constructor <;> intro h <;> refine ⟨?_, ?_, ?_⟩ <;>
    simp [LuaActorBuilder.on_started, LuaActorBuilder.on_handle,
      LuaActorBuilder.on_stopped, read_to_string, h, PanicOr.map]

/-- Witness for C4 at a concrete missing file. -/
theorem C4_file_setters_abort_witness :
    LuaActorBuilder.new.on_started (fun _ => .absent) "missing.lua" =
      .panic "File not found" :=
  ((C4_file_setters_abort (fun _ => .absent) LuaActorBuilder.new
    "missing.lua").1 rfl).1

/-- C6: the inline-text setters store the given text verbatim in their
slot, touch nothing else, perform no file access and cannot fail; a
subsequent successful build uses exactly that text as the hook body. -/
theorem C6_inline_verbatim (b : LuaActorBuilder) (text : String)
    (compile : String → Except LuaError Unit) :
    b.on_started_with_lua text = { b with started := some text } ∧
    b.on_handle_with_lua text = { b with handle := some text } ∧
    b.on_stopped_with_lua text = { b with stopped := some text } ∧
    (∀ a : LuaActor,
      (b.on_started_with_lua text).build compile = .ok a → a.started = text) ∧
    (∀ a : LuaActor,
      (b.on_handle_with_lua text).build compile = .ok a → a.handle = text) ∧
    (∀ a : LuaActor,
      (b.on_stopped_with_lua text).build compile = .ok a → a.stopped = text) := by
  refine ⟨rfl, rfl, rfl, ?_, ?_, ?_⟩ <;> intro a ha <;>
  · simp only [LuaActorBuilder.build, LuaActor.new,
      LuaActorBuilder.on_started_with_lua, LuaActorBuilder.on_handle_with_lua,
      LuaActorBuilder.on_stopped_with_lua] at ha
    rcases h1 : compile ((b.started).getD noop) with e | u <;>
      rcases h2 : compile ((b.handle).getD noop) with e2 | u2 <;>
      rcases h3 : compile ((b.stopped).getD noop) with e3 | u3 <;>
      rcases h4 : compile text with e4 | u4 <;>
      rcases h5 : (match b.initialize_vm with
                   | some f => f {}
                   | none => Except.ok ()) with e5 | u5 <;>
      simp_all <;> (try cases ha) <;> rfl

/-- Witness for C6 at a concrete builder, text and engine. -/
theorem C6_inline_verbatim_witness :
    ({ started := noop, handle := "x = 1", stopped := noop } :
      LuaActor).handle = "x = 1" :=
  (C6_inline_verbatim LuaActorBuilder.new "x = 1"
    (fun _ => .ok ())).2.2.2.2.1
    { started := noop, handle := "x = 1", stopped := noop } rfl

/-- C1: build consumes the configuration and produces an actor exactly
when every hook slot text compiles in the engine and the attached
initialization routine (when present) reports success; otherwise it
returns a script error and no actor at all. -/
theorem C1_build_all_or_nothing (compile : String → Except LuaError Unit)
    (b : LuaActorBuilder) :
    (∃ a : LuaActor, b.build compile = .ok a) ↔
      compile ((b.started).getD noop) = .ok () ∧
      compile ((b.handle).getD noop) = .ok () ∧
      compile ((b.stopped).getD noop) = .ok () ∧
      (∀ g, b.initialize_vm = some g → g {} = .ok ()) := by
  simp only [LuaActorBuilder.build, LuaActor.new]
  rcases hvm : b.initialize_vm with _ | g <;>
    rcases h1 : compile ((b.started).getD noop) with e1 | u1 <;>
    rcases h2 : compile ((b.handle).getD noop) with e2 | u2 <;>
    rcases h3 : compile ((b.stopped).getD noop) with e3 | u3 <;>
    simp_all
  rcases h4 : g {} with e4 | u4 <;> simp_all

/-- C3: `new` yields the all-default configuration (every slot holds the
no-op script `return`, no initialization routine), and building it with
an engine that accepts the no-op script succeeds, producing the actor
whose three hooks are all the no-op script. -/
theorem C3_new_all_defaults (compile : String → Except LuaError Unit)
    (hnoop : compile noop = .ok ()) :
    LuaActorBuilder.new =
      { started := some noop, handle := some noop, stopped := some noop,
        initialize_vm := none } ∧
    LuaActorBuilder.new.build compile =
      .ok { started := noop, handle := noop, stopped := noop } := by
  refine ⟨rfl, ?_⟩
  simp [LuaActorBuilder.build, LuaActor.new, LuaActorBuilder.new,
    LuaActorBuilder.default, hnoop]

/-- Witness for C3 with a concrete engine accepting every script. -/
theorem C3_new_all_defaults_witness :
    LuaActorBuilder.new.build (fun _ => .ok ()) =
      .ok { started := noop, handle := noop, stopped := noop } :=
  (C3_new_all_defaults (fun _ => .ok ()) rfl).2

/-- C5 counterexample: the file read is NOT deferred to build time.  Two
filesystems that differ only in the contents of `hook.lua` already give
different results for the `on_started` setter call itself, so the file
is read during the setter call. -/
theorem C5_counterexample :
    LuaActorBuilder.new.on_started (fun _ => .text "print(1)") "hook.lua" ≠
      LuaActorBuilder.new.on_started (fun _ => .text "print(2)") "hook.lua" := by
  intro h
  have h2 := congrArg
    (fun r => match r with
      | PanicOr.ok b => b.started
      | PanicOr.panic _ => none) h
  simp [LuaActorBuilder.on_started, read_to_string, PanicOr.map] at h2

/-- C5 amended: each file-based setter performs its file read at the
setter call itself and stores the contents; building afterwards only
hands the already-stored texts to the actor constructor, which takes no
filesystem, so no file access remains at build time. -/
theorem C5_io_at_setter_time (fs : FS) (b : LuaActorBuilder)
    (path s : String) (compile : String → Except LuaError Unit)
    (h : fs path = .text s) :
    (b.on_started fs path).map (fun b2 => b2.build compile) =
      .ok (LuaActor.new compile (some s) b.handle b.stopped b.initialize_vm) ∧
    (b.on_handle fs path).map (fun b2 => b2.build compile) =
      .ok (LuaActor.new compile b.started (some s) b.stopped b.initialize_vm) ∧
    (b.on_stopped fs path).map (fun b2 => b2.build compile) =
      .ok (LuaActor.new compile b.started b.handle (some s) b.initialize_vm) := by
  refine ⟨?_, ?_, ?_⟩ <;>
    simp [LuaActorBuilder.on_started, LuaActorBuilder.on_handle,
      LuaActorBuilder.on_stopped, LuaActorBuilder.build, read_to_string, h,
      PanicOr.map]

/-- Witness for the amended C5 at a concrete filesystem and engine. -/
theorem C5_io_at_setter_time_witness :
    (LuaActorBuilder.new.on_started (fun _ => .text "x = 1") "hook.lua").map
        (fun b2 => b2.build (fun _ => .ok ())) =
      .ok (LuaActor.new (fun _ => .ok ()) (some "x = 1") (some noop)
        (some noop) none) :=
  (C5_io_at_setter_time (fun _ => .text "x = 1") LuaActorBuilder.new
    "hook.lua" "x = 1" (fun _ => .ok ()) rfl).1

/-- C7: hook-slot setters on different slots commute in either call
order (inline with inline, file with inline in all six ordered pairs,
and file with file whenever the first file is readable), repeating a
setter with the same argument is idempotent, every setter — file or
inline — touches only its own slot and leaves the initialization
routine alone, and `with_vm` commutes with all six slot setters and
touches no slot. -/
theorem C7_setters_commute_idempotent (b : LuaActorBuilder)
    (t u : String) (g : InitializeVM) (fs : FS) (p q c : String) :
    ((b.on_started_with_lua t).on_handle_with_lua u =
      (b.on_handle_with_lua u).on_started_with_lua t) ∧
    ((b.on_started_with_lua t).on_stopped_with_lua u =
      (b.on_stopped_with_lua u).on_started_with_lua t) ∧
    ((b.on_handle_with_lua t).on_stopped_with_lua u =
      (b.on_stopped_with_lua u).on_handle_with_lua t) ∧
    ((b.on_started_with_lua t).on_started_with_lua t =
      b.on_started_with_lua t) ∧
    ((b.on_handle_with_lua t).on_handle_with_lua t =
      b.on_handle_with_lua t) ∧
    ((b.on_stopped_with_lua t).on_stopped_with_lua t =
      b.on_stopped_with_lua t) ∧
    ((b.on_started fs p).bind (fun b2 => b2.on_started fs p) =
      b.on_started fs p) ∧
    ((b.on_handle fs p).bind (fun b2 => b2.on_handle fs p) =
      b.on_handle fs p) ∧
    ((b.on_stopped fs p).bind (fun b2 => b2.on_stopped fs p) =
      b.on_stopped fs p) ∧
    ((b.on_started fs p).map (fun b2 => b2.on_handle_with_lua u) =
      (b.on_handle_with_lua u).on_started fs p) ∧
    ((b.on_started fs p).map (fun b2 => b2.on_stopped_with_lua u) =
      (b.on_stopped_with_lua u).on_started fs p) ∧
    ((b.on_handle fs p).map (fun b2 => b2.on_started_with_lua u) =
      (b.on_started_with_lua u).on_handle fs p) ∧
    ((b.on_handle fs p).map (fun b2 => b2.on_stopped_with_lua u) =
      (b.on_stopped_with_lua u).on_handle fs p) ∧
    ((b.on_stopped fs p).map (fun b2 => b2.on_started_with_lua u) =
      (b.on_started_with_lua u).on_stopped fs p) ∧
    ((b.on_stopped fs p).map (fun b2 => b2.on_handle_with_lua u) =
      (b.on_handle_with_lua u).on_stopped fs p) ∧
    (fs p = .text c →
      (b.on_started fs p).bind (fun b2 => b2.on_handle fs q) =
        (b.on_handle fs q).bind (fun b2 => b2.on_started fs p) ∧
      (b.on_handle fs p).bind (fun b2 => b2.on_stopped fs q) =
        (b.on_stopped fs q).bind (fun b2 => b2.on_handle fs p) ∧
      (b.on_stopped fs p).bind (fun b2 => b2.on_started fs q) =
        (b.on_started fs q).bind (fun b2 => b2.on_stopped fs p)) ∧
    ((b.on_started_with_lua t).handle = b.handle ∧
     (b.on_started_with_lua t).stopped = b.stopped ∧
     (b.on_started_with_lua t).initialize_vm = b.initialize_vm) ∧
    ((b.on_handle_with_lua t).started = b.started ∧
     (b.on_handle_with_lua t).stopped = b.stopped ∧
     (b.on_handle_with_lua t).initialize_vm = b.initialize_vm) ∧
    ((b.on_stopped_with_lua t).started = b.started ∧
     (b.on_stopped_with_lua t).handle = b.handle ∧
     (b.on_stopped_with_lua t).initialize_vm = b.initialize_vm) ∧
    (∀ b2, b.on_started fs p = .ok b2 →
      b2.handle = b.handle ∧ b2.stopped = b.stopped ∧
      b2.initialize_vm = b.initialize_vm) ∧
    (∀ b2, b.on_handle fs p = .ok b2 →
      b2.started = b.started ∧ b2.stopped = b.stopped ∧
      b2.initialize_vm = b.initialize_vm) ∧
    (∀ b2, b.on_stopped fs p = .ok b2 →
      b2.started = b.started ∧ b2.handle = b.handle ∧
      b2.initialize_vm = b.initialize_vm) ∧
    ((b.with_vm g).on_started_with_lua t =
      (b.on_started_with_lua t).with_vm g) ∧
    ((b.with_vm g).on_handle_with_lua t =
      (b.on_handle_with_lua t).with_vm g) ∧
    ((b.with_vm g).on_stopped_with_lua t =
      (b.on_stopped_with_lua t).with_vm g) ∧
    ((b.with_vm g).on_started fs p =
      (b.on_started fs p).map (fun b2 => b2.with_vm g)) ∧
    ((b.with_vm g).on_handle fs p =
      (b.on_handle fs p).map (fun b2 => b2.with_vm g)) ∧
    ((b.with_vm g).on_stopped fs p =
      (b.on_stopped fs p).map (fun b2 => b2.with_vm g)) ∧
    ((b.with_vm g).started = b.started ∧ (b.with_vm g).handle = b.handle ∧
     (b.with_vm g).stopped = b.stopped) := by
  refine ⟨rfl, rfl, rfl, rfl, rfl, rfl, ?_, ?_, ?_, ?_, ?_, ?_, ?_, ?_, ?_,
    ?_, ⟨rfl, rfl, rfl⟩, ⟨rfl, rfl, rfl⟩, ⟨rfl, rfl, rfl⟩, ?_, ?_, ?_,
    rfl, rfl, rfl, ?_, ?_, ?_, ⟨rfl, rfl, rfl⟩⟩ <;>
  first
    | -- file with file cross-slot commutation, first file readable
      (intro h
       refine ⟨?_, ?_, ?_⟩ <;> cases hfs : fs q <;>
         simp [LuaActorBuilder.on_started, LuaActorBuilder.on_handle,
           LuaActorBuilder.on_stopped, read_to_string, h, hfs,
           PanicOr.map, PanicOr.bind])
    | -- file setters touch only their own slot
      (intro b2 hb2
       cases hfs : fs p <;>
         simp [LuaActorBuilder.on_started, LuaActorBuilder.on_handle,
           LuaActorBuilder.on_stopped, read_to_string, hfs,
           PanicOr.map] at hb2
       subst hb2
       simp)
    | -- file idempotence, file with inline commutation, with_vm with file
      (cases hfs : fs p <;>
        simp [LuaActorBuilder.on_started, LuaActorBuilder.on_handle,
          LuaActorBuilder.on_stopped, LuaActorBuilder.on_started_with_lua,
          LuaActorBuilder.on_handle_with_lua, LuaActorBuilder.on_stopped_with_lua,
          LuaActorBuilder.with_vm, read_to_string, hfs,
          PanicOr.map, PanicOr.bind])

/-- Witness for C7 at concrete arguments: `on_started` and `on_handle`
on readable files commute across their two slots. -/
theorem C7_setters_commute_idempotent_witness :
    (LuaActorBuilder.new.on_started (fun _ => .text "a") "p").bind
        (fun b2 => b2.on_handle (fun _ => .text "a") "q") =
      (LuaActorBuilder.new.on_handle (fun _ => .text "a") "q").bind
        (fun b2 => b2.on_started (fun _ => .text "a") "p") := by
  have h := C7_setters_commute_idempotent LuaActorBuilder.new "t" "u"
    (fun _ => .ok ()) (fun _ => .text "a") "p" "q" "a"
  exact (h.2.2.2.2.2.2.2.2.2.2.2.2.2.2.2.1 rfl).1

/-- C8: construction is deterministic.  Two configurations produced from
`new` by the same operation sequence over the same filesystem are equal
field by field, and `build` gives the same result for both. -/
theorem C8_build_deterministic (fs : FS) (ops : List BuilderOp)
    (b1 b2 : LuaActorBuilder) (compile : String → Except LuaError Unit)
    (h1 : LuaActorBuilder.new.applyOps fs ops = .ok b1)
    (h2 : LuaActorBuilder.new.applyOps fs ops = .ok b2) :
    b1.started = b2.started ∧ b1.handle = b2.handle ∧
    b1.stopped = b2.stopped ∧ b1.initialize_vm = b2.initialize_vm ∧
    b1.build compile = b2.build compile := by
  rw [h1] at h2
  cases h2
  exact ⟨rfl, rfl, rfl, rfl, rfl⟩

/-- Witness for C8 with a concrete operation sequence. -/
theorem C8_build_deterministic_witness :
    ({ LuaActorBuilder.new with handle := some "x = 1" } :
        LuaActorBuilder).build (fun _ => .ok ()) =
      ({ LuaActorBuilder.new with handle := some "x = 1" } :
        LuaActorBuilder).build (fun _ => .ok ()) :=
  (C8_build_deterministic (fun _ => .absent) [.onHandleWithLua "x = 1"]
    { LuaActorBuilder.new with handle := some "x = 1" }
    { LuaActorBuilder.new with handle := some "x = 1" }
    (fun _ => .ok ()) rfl rfl).2.2.2.2

/-- All three hook slots hold a concrete script text. -/
def LuaActorBuilder.slotsConcrete (self : LuaActorBuilder) : Prop :=
  self.started.isSome ∧ self.handle.isSome ∧ self.stopped.isSome

/-- Every single builder operation preserves concreteness of the three
hook slots. -/
theorem applyOp_slotsConcrete (fs : FS) (b b' : LuaActorBuilder)
    (op : BuilderOp) (hb : b.slotsConcrete) (h : b.applyOp fs op = .ok b') :
    b'.slotsConcrete := by
  obtain ⟨hs, hh, ht⟩ := hb
  cases op <;>
    first
      | (rename_i p
         cases hfs : fs p <;>
           simp_all [LuaActorBuilder.applyOp, LuaActorBuilder.slotsConcrete,
             LuaActorBuilder.on_started, LuaActorBuilder.on_handle,
             LuaActorBuilder.on_stopped, LuaActorBuilder.on_started_with_lua,
             LuaActorBuilder.on_handle_with_lua,
             LuaActorBuilder.on_stopped_with_lua, LuaActorBuilder.with_vm,
             read_to_string, PanicOr.map])
      | simp_all [LuaActorBuilder.applyOp, LuaActorBuilder.slotsConcrete,
          LuaActorBuilder.on_started_with_lua, LuaActorBuilder.on_handle_with_lua,
          LuaActorBuilder.on_stopped_with_lua, LuaActorBuilder.with_vm]
  all_goals (cases h; refine ⟨?_, ?_, ?_⟩ <;> simp_all)

/-- Every reachable builder keeps all three hook slots concrete. -/
theorem applyOps_slotsConcrete (fs : FS) (ops : List BuilderOp) :
    ∀ b b' : LuaActorBuilder, b.slotsConcrete →
      b.applyOps fs ops = .ok b' → b'.slotsConcrete := by
  induction ops with
  | nil =>
    intro b b' hb h
    simp only [LuaActorBuilder.applyOps] at h
    cases h
    exact hb
  | cons op ops ih =>
    intro b b' hb h
    simp only [LuaActorBuilder.applyOps] at h
    cases hop : b.applyOp fs op with
    | panic m => rw [hop] at h; exact PanicOr.noConfusion h
    | ok b2 =>
      rw [hop] at h
      exact ih b2 b' (applyOp_slotsConcrete fs b b2 op hb hop) h

/-- C9: in every configuration reachable from `new` by any sequence of
setter and `with_vm` calls, each of the three hook slots holds a
concrete script text, so `build` always passes a concrete text for all
three slots to the actor constructor. -/
theorem C9_slots_always_concrete (fs : FS) (ops : List BuilderOp)
    (b : LuaActorBuilder)
    (h : LuaActorBuilder.new.applyOps fs ops = .ok b) :
    (∃ s, b.started = some s) ∧ (∃ s, b.handle = some s) ∧
    (∃ s, b.stopped = some s) := by
  obtain ⟨h1, h2, h3⟩ :=
    applyOps_slotsConcrete fs ops LuaActorBuilder.new b ⟨rfl, rfl, rfl⟩ h
  exact ⟨Option.isSome_iff_exists.mp h1, Option.isSome_iff_exists.mp h2,
    Option.isSome_iff_exists.mp h3⟩

/-- Witness for C9 with a concrete operation sequence and filesystem. -/
theorem C9_slots_always_concrete_witness :
    (∃ s, ({ LuaActorBuilder.new with started := some "a" } :
      LuaActorBuilder).started = some s) ∧
    (∃ s, ({ LuaActorBuilder.new with started := some "a" } :
      LuaActorBuilder).handle = some s) ∧
    (∃ s, ({ LuaActorBuilder.new with started := some "a" } :
      LuaActorBuilder).stopped = some s) :=
  C9_slots_always_concrete (fun _ => .text "a") [.onStarted "p"]
    { LuaActorBuilder.new with started := some "a" } rfl

end ActixLua
